import Mathlib

/-!
Verification of the toy-router repository (a client-side SPA navigation
controller written in TypeScript) against its natural-language specification.

The TypeScript sources are shallowly embedded below:
* strings are manipulated through their underlying character lists, mirroring
  the JavaScript string operations used by the source (`split`, `trim`,
  `startsWith`, one-occurrence `replace`, ...);
* JavaScript plain objects used as string-keyed records are modelled as
  insertion-ordered association lists with in-place value update, matching
  JS property-assignment semantics;
* the DOM, the history stack and the scroll position are modelled as an
  explicit `World` record threaded through the navigation pipeline;
* asynchronous guards and lazy views are modelled by their awaited outcome.
-/

namespace ToyRouter

/-! ## JavaScript string primitives -/

/-- `s.split(c)` for a single-character separator: JavaScript semantics,
`"".split(c) = [""]`, separators at the ends produce empty pieces. -/
def splitChar (c : Char) : List Char → List (List Char)
  | [] => [[]]
  | x :: xs =>
    let r := splitChar c xs
    if x = c then [] :: r
    else
      match r with
      | h :: t => (x :: h) :: t
      | [] => [[x]]

/-- Everything before the first occurrence of `c`, paired with everything
after it (`none` when `c` does not occur). -/
def splitAtFirst (c : Char) : List Char → List Char × Option (List Char)
  | [] => ([], none)
  | x :: xs =>
    if x = c then ([], some xs)
    else
      let r := splitAtFirst c xs
      (x :: r.1, r.2)

/-- `s.replace(c, "")` with a single-character string pattern: JavaScript's
`String.prototype.replace` with a string argument removes only the first
occurrence. -/
def removeFirstAux (c : Char) : List Char → List Char
  | [] => []
  | x :: xs => if x = c then xs else x :: removeFirstAux c xs

/-- String-level wrapper for `removeFirstAux`. -/
def removeFirst (c : Char) (s : String) : String :=
  String.mk (removeFirstAux c s.data)

/-- The whitespace characters stripped by `String.prototype.trim` that occur
in practice (ASCII whitespace). -/
def isJsWhitespace (c : Char) : Bool :=
  c = ' ' || c = '\t' || c = '\n' || c = '\r' || c = '\x0b' || c = '\x0c'

/-- `s.trim()`: strip whitespace from both ends. -/
def jsTrim (s : String) : String :=
  String.mk (((s.data.dropWhile isJsWhitespace).reverse.dropWhile isJsWhitespace).reverse)

/-- `s.startsWith(c)` for a one-character prefix. -/
def headIs (c : Char) (s : String) : Bool :=
  match s.data with
  | [] => false
  | x :: _ => x = c

/-- `s.endsWith(c)` for a one-character suffix. -/
def lastIs (c : Char) (s : String) : Bool :=
  match s.data.getLast? with
  | none => false
  | some x => x = c

/-- Hexadecimal digit value, as used by percent-decoding: code points 48-57
are the digits, 65-70 the uppercase and 97-102 the lowercase hex letters. -/
def hexVal (c : Char) : Option Nat :=
  let n := c.toNat
  if 48 ≤ n ∧ n ≤ 57 then some (n - 48)
  else if 65 ≤ n ∧ n ≤ 70 then some (n - 55)
  else if 97 ≤ n ∧ n ≤ 102 then some (n - 87)
  else none

/-- Character-list worker for `decodeURIComponentModel`. -/
def percentDecodeList : List Char → List Char
  | [] => []
  | '%' :: a :: b :: rest =>
    match hexVal a, hexVal b with
    | some ha, some hb => Char.ofNat (16 * ha + hb) :: percentDecodeList rest
    | _, _ => '%' :: percentDecodeList (a :: b :: rest)
  | c :: rest => c :: percentDecodeList rest

/-- Model of the JavaScript builtin `decodeURIComponent` restricted to
single-byte percent escapes: a `%XY` hex escape decodes to the character with
code `0xXY`; other characters pass through unchanged.  (The builtin
additionally reassembles multi-byte UTF-8 sequences and throws on malformed
input; no claim exercises those behaviours.) -/
def decodeURIComponentModel (s : String) : String :=
  String.mk (percentDecodeList s.data)

/-! ## JavaScript object / Map primitives

A JS plain object used as a string-keyed record (and likewise a `Map`) keeps
first-insertion order; assigning an existing key updates its value in place,
assigning a fresh key appends. -/

/-- JS property assignment `obj[k] = v` on an insertion-ordered record. -/
def mapSet {α : Type} (m : List (String × α)) (k : String) (v : α) :
    List (String × α) :=
  match m with
  | [] => [(k, v)]
  | (k', v') :: rest => if k' = k then (k, v) :: rest else (k', v') :: mapSet rest k v

/-- JS property read `obj[k]` / `map.get(k)`. -/
def mapGet {α : Type} (m : List (String × α)) (k : String) : Option α :=
  match m with
  | [] => none
  | (k', v') :: rest => if k' = k then some v' else mapGet rest k

/-! ## Data model (src/types.ts) -/

/-- The awaited outcome of one `beforeEnter` guard invocation: either the
awaited value (`none` models the JavaScript nullish results `undefined` and
`null`), or a thrown/rejected error with its message. -/
inductive GuardOutcome where
  | value (b : Option Bool)
  | throws (msg : String)
deriving DecidableEq, Repr

/-- A route's `view` declaration (`ViewTypes` in src/types.ts), classified by
its JavaScript runtime shape:
* `vstr s` — a string;
* `velem n` — an `HTMLElement` instance (opaque handle `n`);
* `vlazyDefault d` — a zero-argument function returning a promise whose
  awaited value has a truthy `default` field modelled by `d` (mirroring the
  source's `if (resolvedViewPromise.default)` truthiness test);
* `vlazyPlain v` — a zero-argument function returning a promise whose awaited
  value (with no truthy `default` field) is itself the declaration `v`;
* `vfuncNonPromise` — a function whose call result is not a promise;
* `vother` — any other runtime value. -/
inductive View where
  | vstr (s : String)
  | velem (n : Nat)
  | vlazyDefault (d : View)
  | vlazyPlain (v : View)
  | vfuncNonPromise
  | vother
deriving DecidableEq, Repr

/-- A route declaration (src/types.ts `Route`). -/
structure Route where
  path : String
  view : View
  beforeEnter : Option GuardOutcome
  preserveScrollPosition : Bool
  title : Option String
deriving DecidableEq, Repr

/-- src/types.ts `MatchResult`. -/
structure MatchResult where
  route : Route
  params : List (String × String)
deriving DecidableEq, Repr

/-! ## loadRoutes (src/utils/loadRoutes.ts) -/

/-- The synthetic fallback route appended by `loadRoutes`
(src/utils/loadRoutes.ts lines 7-10); the view string carries the source's
typo verbatim. -/
def catchAllRoute : Route :=
  { path := "*"
  , view := .vstr "<h1>404 Page Not Foud</h1>"
  , beforeEnter := none
  , preserveScrollPosition := false
  , title := none }

/-- src/utils/loadRoutes.ts `loadRoutes`: return the list unchanged when a
`"*"` route exists, otherwise append the synthetic fallback. -/
def loadRoutes (routes : List Route) : List Route :=
  match routes.find? (fun route => decide (route.path = "*")) with
  | some _ => routes
  | none => routes ++ [catchAllRoute]

/-! ## matchRoute (src/utils/matchRoute.ts) -/

/-- `pathname.replace(/^\/|\/$/g, "")`: the regex removes one leading and one
trailing slash (the global flag lets both alternatives fire; on the
one-character input `"/"` only the leading alternative consumes it). -/
def stripSlashes (l : List Char) : List Char :=
  let l1 := match l with
    | '/' :: t => t
    | other => other
  match l1.reverse with
  | '/' :: t => t.reverse
  | _ => l1

/-- Segment sequence of a path or pattern: strip the outer slashes, split on
`'/'` (src/utils/matchRoute.ts lines 4-5, 13). -/
def segsOf (s : String) : List String :=
  (splitChar '/' (stripSlashes s.data)).map String.mk

/-- `routeSegment.startsWith(":")`. -/
def isParamSeg (seg : String) : Bool :=
  match seg.data with
  | ':' :: _ => true
  | _ => false

/-- `routeSegment.slice(1)`. -/
def paramName (seg : String) : String :=
  String.mk seg.data.tail

/-- The inner segment loop of `matchRoute` (src/utils/matchRoute.ts lines
19-29): walk both segment lists in step, binding parameter segments into the
accumulated params object and rejecting on the first literal mismatch.
Called only with lists of equal length; a length mismatch yields `none`. -/
def collectMatch : List String → List String → List (String × String) →
    Option (List (String × String))
  | [], [], acc => some acc
  | r :: rs, p :: ps, acc =>
    if isParamSeg r then collectMatch rs ps (mapSet acc (paramName r) p)
    else if r = p then collectMatch rs ps acc
    else none
  | _, _, _ => none

/-- The outer route loop of `matchRoute` (src/utils/matchRoute.ts lines
12-37): first route in declaration order whose segment count equals the
path's and whose segments all match wins. -/
def findMatch : List Route → List String → Option MatchResult
  | [], _ => none
  | r :: rs, pathArr =>
    let routeArr := segsOf r.path
    if routeArr.length = pathArr.length then
      match collectMatch routeArr pathArr [] with
      | some ps => some { route := r, params := ps }
      | none => findMatch rs pathArr
    else findMatch rs pathArr

/-- src/utils/matchRoute.ts `matchRoute`: the result defaults to the `"*"`
fallback with empty params and is replaced by the first declared route whose
entire segment sequence matches.  `none` models the case where neither a
declared route matches nor a `"*"` route exists (the source's non-null
assertion `routes.find(...)!` would have produced `undefined`). -/
def matchRoute (pathname : String) (routes : List Route) : Option MatchResult :=
  let pathArr := segsOf pathname
  match findMatch routes pathArr with
  | some m => some m
  | none =>
    (routes.find? (fun route => decide (route.path = "*"))).map
      (fun route => { route := route, params := [] })

/-! ## URL model

`new URL(path, window.location.origin)` for a same-origin path string: the
part after the first `'#'` is the fragment, the part before it splits at the
first `'?'` into pathname and query.  As in the WHATWG URL standard, `url.search`
is `""` (not `"?"`) for an empty query and `url.hash` is `""` for an empty
fragment; an empty path resolves to `"/"`.  (Percent-encoding normalisation of
the pathname is not modelled; the router only ever passes path-absolute
strings built from its own inputs.) -/

structure URLParts where
  pathname : String
  search : String
  hash : String
deriving DecidableEq, Repr

/-- Parse a path-relative URL string into its parts (see module comment). -/
def parseURL (s : String) : URLParts :=
  let h := splitAtFirst '#' s.data
  let q := splitAtFirst '?' h.1
  { pathname := if q.1 = [] then "/" else String.mk q.1
  , search :=
      match q.2 with
      | some [] => ""
      | some qs => String.mk ('?' :: qs)
      | none => ""
  , hash :=
      match h.2 with
      | some [] => ""
      | some f => String.mk ('#' :: f)
      | none => "" }

/-- src/types.ts `RouteContext`. -/
structure RouteContext where
  url : URLParts
  pathname : String
  params : List (String × String)
  query : List (String × String)
  hash : String
deriving DecidableEq, Repr

namespace Router

/-- `Router.#createRouteContext` (src/Router.ts lines 241-265): build the
navigation context.  The query object is built by splitting the search string
(first `'?'` removed) on `'&'`; each piece is split on `'='` and destructured
as `[rawKey, rawValue = ""]`, so only the first two components are kept; key
and value are percent-decoded independently and assigned into the object in
order (an existing key is overwritten).  The hash is the fragment with its
first `'#'` removed. -/
def createRouteContext (matchedRoute : MatchResult) (path : String) :
    RouteContext :=
  let url := parseURL path
  let query := removeFirst '?' url.search
  let queryObj :=
    if query.data = [] then []
    else
      (splitChar '&' query.data).foldl
        (fun obj val =>
          let comps := splitChar '=' val
          let rawKey := String.mk (comps.getD 0 [])
          let rawValue := String.mk (comps.getD 1 [])
          mapSet obj (decodeURIComponentModel rawKey)
            (decodeURIComponentModel rawValue))
        []
  { url := url
  , pathname := url.pathname
  , params := matchedRoute.params
  , query := queryObj
  , hash := removeFirst '#' url.hash }

/-! ## View resolver (`Router.#validateView`, src/Router.ts lines 306-363) -/

/-- The `viewType` tag returned by `#validateView`. -/
inductive ViewKind where
  | string
  | webComponent
  | htmlElement
deriving DecidableEq, Repr

/-- The error message thrown for an unrecognized view declaration
(src/Router.ts lines 358-362). -/
def unrecognizedViewMessage : String :=
  "Unrecognized view format. View should be a string, name of a web component, html element or promise resolving to one of these types."

/-- `c` is an ASCII lowercase letter (regex class `[a-z]`). -/
def isLowerAZ (c : Char) : Bool := 'a' ≤ c && c ≤ 'z'

/-- `c` matches the regex class `[a-z0-9]`. -/
def isAZ09 (c : Char) : Bool := isLowerAZ c || ('0' ≤ c && c ≤ '9')

/-- Matcher for the regex suffix `(-[a-z0-9]+)+` restricted to zero or more
further groups: each group is a `'-'` followed by one or more `[a-z0-9]`
characters, and the whole remainder must be consumed.  (The regex is
deterministic here: `[a-z0-9]` never matches `'-'`, so greedy matching
without backtracking is exact.) -/
def wcGroups : List Char → Bool
  | [] => true
  | c :: cs =>
    decide (c = '-') &&
      (decide (0 < (cs.takeWhile isAZ09).length) && wcGroups (cs.dropWhile isAZ09))
termination_by l => l.length
decreasing_by
  simp only [List.length_cons]
  exact Nat.lt_succ_of_le (List.Sublist.length_le (List.dropWhile_sublist _))

/-- The web-component test `/^[a-z][a-z0-9]*(-[a-z0-9]+)+$/.test(trimmed)`
(src/Router.ts line 320): a lowercase letter, then `[a-z0-9]*`, then at least
one `-[a-z0-9]+` group, consuming the entire string. -/
def isWebComponentName (s : String) : Bool :=
  match s.data with
  | [] => false
  | c :: rest =>
    isLowerAZ c &&
      (decide (rest.dropWhile isAZ09 ≠ []) && wcGroups (rest.dropWhile isAZ09))

/-- The textual-markup test of `#validateView` (src/Router.ts line 313):
`trimmed.startsWith("<") && trimmed.endsWith(">")` on the trimmed string. -/
def isMarkupString (t : String) : Bool :=
  headIs '<' t && lastIs '>' t

/-- `Router.#validateView` (src/Router.ts lines 306-363).  A string is
classified by its trimmed form: markup, then web-component name, otherwise it
falls through every later branch to the unrecognized error.  An element is a
materialized element handle.  A promise-returning function is awaited and
classification recurses on the truthy `default` field of the awaited value if
present, otherwise on the awaited value itself.  Everything else (including a
function not returning a promise) is an error. -/
def validateView : View → Except String (ViewKind × View)
  | .vstr s =>
    let trimmed := jsTrim s
    if isMarkupString trimmed then .ok (.string, .vstr trimmed)
    else if isWebComponentName trimmed then .ok (.webComponent, .vstr trimmed)
    else .error unrecognizedViewMessage
  | .velem n => .ok (.htmlElement, .velem n)
  | .vlazyDefault d => validateView d
  | .vlazyPlain v => validateView v
  | .vfuncNonPromise => .error unrecognizedViewMessage
  | .vother => .error unrecognizedViewMessage

/-- Number of suspension points (`await`s) performed while classifying a view
declaration: each lazy unwrap awaits its promise once; the three synchronous
kinds perform none. -/
def awaitCount : View → Nat
  | .vlazyDefault d => 1 + awaitCount d
  | .vlazyPlain v => 1 + awaitCount v
  | _ => 0

end Router

/-! ## Controller state and world -/

/-- A registered `onRouteChange` callback.  `id` models the JavaScript
function reference (distinct registrations have distinct ids, and `!==`
becomes structural inequality); `throws` records whether invoking the
callback throws. -/
structure Callback where
  id : Nat
  throws : Bool
deriving DecidableEq, Repr

/-- The controller's process-wide state (the static fields of `Router`,
src/Router.ts lines 20-25).  `none` for the current match result / context
models the `undefined` value those statics hold before the first commit. -/
structure RouterState where
  routes : List Route
  currentRoute : Option MatchResult
  currentRouteContext : Option RouteContext
  routeChangeCallbacks : List Callback
  scrollPositions : List (String × Int)
deriving DecidableEq, Repr

/-- The browser world the controller mutates: location, history stack,
vertical scroll offset, the mount point's rendered content, the document
title, the console error log, and the record of subscriber invocations
(callback id paired with the context it received, in call order). -/
structure World where
  locationPath : String
  history : List String
  scrollY : Int
  renderedView : Option (Router.ViewKind × View)
  documentTitle : String
  errorLog : List String
  notifications : List (Nat × RouteContext)
deriving DecidableEq, Repr

/-- The history mutation a navigation entry point requests:
`history.pushState({}, "", p)` or `history.replaceState({}, "", p)`.  The
back/forward reconcile passes no action. -/
inductive HistoryOp where
  | push (p : String)
  | replace (p : String)
deriving DecidableEq, Repr

/-- Apply the optional `historyAction` closure (src/Router.ts line 214,
closures built at lines 47-49 and 55-57): push appends an entry and moves the
location; replace swaps the top entry and moves the location. -/
def applyHistory : Option HistoryOp → World → World
  | none, w => w
  | some (.push p), w => { w with locationPath := p, history := w.history ++ [p] }
  | some (.replace p), w =>
    { w with locationPath := p, history := w.history.dropLast ++ [p] }

namespace Router

/-- Evaluation of `(await matchedRoute.route.beforeEnter?.(ctx)) ?? true`
together with its surrounding try/catch (src/Router.ts lines 191-200): no
guard, or an awaited nullish result, yields `true` via the nullish-coalescing
default; an awaited boolean is taken as-is; a throwing guard is an error. -/
def guardEval : Option GuardOutcome → Except String Bool
  | none => .ok true
  | some (.value b) => .ok (b.getD true)
  | some (.throws msg) => .error msg

/-- The message logged when a subscriber callback throws
(src/Router.ts line 370). -/
def callbackErrorMessage : String := "RouteChange callback error"

/-- `Router.#callRouteChangeCallbacks` (src/Router.ts lines 365-373): invoke
every registered callback with the current context in registration order;
each invocation is recorded, and a throwing callback is caught and logged
without stopping the iteration. -/
def callRouteChangeCallbacks (cbs : List Callback) (ctx : RouteContext)
    (w : World) : World :=
  cbs.foldl
    (fun w cb =>
      let w1 := { w with notifications := w.notifications ++ [(cb.id, ctx)] }
      if cb.throws then { w1 with errorLog := w1.errorLog ++ [callbackErrorMessage] }
      else w1)
    w

/-- `Router.#renderRouteView` (src/Router.ts lines 267-304).  A falsy `view`
(the empty string) makes `#renderError` log and throw.  A classification
error from `#validateView` is logged there, then caught, prefixed with
"Route view render error: " and rethrown by `#renderError` (the `return`
after it is unreachable).  On success the mount point's children are replaced
with the resolved view and the document title is set when declared.  The
`error` result carries the thrown message together with the world as left at
the throw (error log included). -/
def renderRouteView (route : Route) (w : World) : Except (String × World) World :=
  if route.view = View.vstr "" then
    let msg := "View for the route " ++ route.path ++ " is missing."
    .error (msg, { w with errorLog := w.errorLog ++ [msg] })
  else
    match validateView route.view with
    | .error msg =>
      let w1 := { w with errorLog := w.errorLog ++ [msg] }
      let msg2 := "Route view render error: " ++ msg
      .error (msg2, { w1 with errorLog := w1.errorLog ++ [msg2] })
    | .ok kv =>
      let w1 := { w with renderedView := some kv }
      match route.title with
      | some t => .ok { w1 with documentTitle := t }
      | none => .ok w1

/-- The pathname the attempt resolves (src/Router.ts lines 180-182):
`new URL(path, origin).pathname` when a path was passed, otherwise
`window.location.pathname`. -/
def requestPathname (w : World) (path : Option String) : String :=
  match path with
  | some p => (parseURL p).pathname
  | none => (parseURL w.locationPath).pathname

/-- The `path || pathname` argument of `#createRouteContext`
(src/Router.ts line 186): JavaScript `||` falls through on the falsy empty
string as well as on `undefined`. -/
def effectivePath (path : Option String) (pathname : String) : String :=
  match path with
  | some p => if p = "" then pathname else p
  | none => pathname

/-- Message modelling the `TypeError` raised when the source dereferences the
`undefined` produced by `routes.find(...)!` with no `"*"` route present. -/
def missingFallbackMessage : String :=
  "TypeError: matched route is undefined"

/-- `Router.#renderRoute` (src/Router.ts lines 179-239), one navigation
attempt:
1. resolve the pathname and run `matchRoute`;
2. build the new route context;
3. evaluate the guard; a thrown guard logs a prefixed error and aborts
   (the rethrow from `#renderError` rejects the attempt); a `false` result
   aborts silently;
4. otherwise commit: set the current match result and context, then — the
   current statics now holding the *new* values — record `window.scrollY`
   under the new URL's `pathname+search+hash` key when the *matched* route is
   flagged `preserveScrollPosition`;
5. run the history action;
6. render the view; a throw is caught, prefixed and rethrown by
   `#renderError`, which skips subscriber notification and scroll resolution;
7. notify subscribers;
8. resolve scroll: a non-empty hash scrolls to the element (position change
   not modelled), else a remembered offset for the key is restored, else the
   scroll resets to the origin. -/
def renderRoute (st : RouterState) (w : World) (path : Option String)
    (action : Option HistoryOp) : RouterState × World :=
  let pathname := requestPathname w path
  match matchRoute pathname st.routes with
  | none => (st, { w with errorLog := w.errorLog ++ [missingFallbackMessage] })
  | some matchedRoute =>
    let newCtx := createRouteContext matchedRoute (effectivePath path pathname)
    match guardEval matchedRoute.route.beforeEnter with
    | .error msg =>
      (st, { w with errorLog := w.errorLog ++ ["beforeEnter error: " ++ msg] })
    | .ok canEnter =>
      if canEnter = false then (st, w)
      else
        let st1 : RouterState :=
          { st with currentRoute := some matchedRoute
                  , currentRouteContext := some newCtx }
        let key := newCtx.url.pathname ++ newCtx.url.search ++ newCtx.url.hash
        let st2 : RouterState :=
          if matchedRoute.route.preserveScrollPosition then
            { st1 with scrollPositions := mapSet st1.scrollPositions key w.scrollY }
          else st1
        let w1 := applyHistory action w
        match renderRouteView matchedRoute.route w1 with
        | .error e =>
          (st2, { e.2 with errorLog := e.2.errorLog ++ ["Route view render error: " ++ e.1] })
        | .ok w2 =>
          let w3 := callRouteChangeCallbacks st2.routeChangeCallbacks newCtx w2
          let w4 :=
            if newCtx.hash = "" then
              match mapGet st2.scrollPositions key with
              | some y => { w3 with scrollY := y }
              | none => { w3 with scrollY := 0 }
            else w3
          (st2, w4)

/-- Modelled from the spec: `normalizeUrl` is re-exported from `src/utils/`
but its source file is absent from the repository snapshot.  Spec §4.5 step 1:
"relative inputs are normalized by prefixing a root marker if not already
path-absolute". -/
def normalizeUrl (p : String) : String :=
  if headIs '/' p then p else "/" ++ p

/-- `Router.navigate` (src/Router.ts lines 44-50): normalize, then render
with a `pushState` history action. -/
def navigate (st : RouterState) (w : World) (path : String) :
    RouterState × World :=
  let normalizedPath := normalizeUrl path
  renderRoute st w (some normalizedPath) (some (.push normalizedPath))

/-- `Router.redirect` (src/Router.ts lines 52-58): normalize, then render
with a `replaceState` history action. -/
def redirect (st : RouterState) (w : World) (path : String) :
    RouterState × World :=
  let normalizedPath := normalizeUrl path
  renderRoute st w (some normalizedPath) (some (.replace normalizedPath))

/-- The `popstate` handler (src/Router.ts line 116): re-render from the
current location with no path argument and no history action. -/
def reconcile (st : RouterState) (w : World) : RouterState × World :=
  renderRoute st w none none

/-- Message modelling the `TypeError` thrown by destructuring `undefined`. -/
def destructureErrorMessage : String :=
  "TypeError: Cannot destructure property of undefined"

/-- `Router.params` (src/Router.ts lines 64-72): destructure the current
context into `{params, query, hash}`.  When the context is still `undefined`
(before the first commit) the destructuring itself throws a `TypeError`. -/
def params (st : RouterState) :
    Except String ((List (String × String)) × (List (String × String)) × String) :=
  match st.currentRouteContext with
  | none => .error destructureErrorMessage
  | some ctx => .ok (ctx.params, ctx.query, ctx.hash)

/-- `Router.currentRoute` (src/Router.ts lines 74-76): return the current
match result as-is (`undefined` before the first commit). -/
def currentRoute (st : RouterState) : Option MatchResult :=
  st.currentRoute

/-- The unsubscribe closure returned by `Router.onRouteChange`
(src/Router.ts lines 87-91): filter the callback list, keeping every
callback that is not (referentially) the registered one. -/
def unsubscribeCallback (cb : Callback) (cbs : List Callback) : List Callback :=
  cbs.filter (fun callback => decide ¬(callback = cb))

/-- `Router.onRouteChange` registration (src/Router.ts line 85): append the
callback to the subscriber list. -/
def registerCallback (st : RouterState) (cb : Callback) : RouterState :=
  { st with routeChangeCallbacks := st.routeChangeCallbacks ++ [cb] }

/-- The controller state as the constructor leaves it before the first
render commits (src/Router.ts lines 30-40): the constructor stores
`loadRoutes(routes)` and fires `#renderRoute()`, but `#renderRoute` is
`async` and suspends at its first `await` (the guard evaluation), so the
current match result and context statics are still `undefined` when the
constructor returns. -/
def initialState (routes : List Route) : RouterState :=
  { routes := loadRoutes routes
  , currentRoute := none
  , currentRouteContext := none
  , routeChangeCallbacks := []
  , scrollPositions := [] }

end Router

/-! ## The earlier development snapshot's inline matcher
(src/unnamed/part_002, `Router.#matchRoute`, lines 85-122).  The snapshot's
method body is the same algorithm as the extracted utility, reading
`this.routes` instead of a parameter; it is embedded independently below so
the refinement claim compares two separate definitions. -/

namespace OldRouter

/-- Inner segment loop of the snapshot's `#matchRoute`
(src/unnamed/part_002 lines 101-111). -/
def collectMatchOld : List String → List String → List (String × String) →
    Option (List (String × String))
  | [], [], acc => some acc
  | r :: rs, p :: ps, acc =>
    if isParamSeg r then collectMatchOld rs ps (mapSet acc (paramName r) p)
    else if r = p then collectMatchOld rs ps acc
    else none
  | _, _, _ => none

/-- Outer route loop of the snapshot's `#matchRoute`
(src/unnamed/part_002 lines 94-119). -/
def findMatchOld : List Route → List String → Option MatchResult
  | [], _ => none
  | r :: rs, pathArr =>
    let routeArr := segsOf r.path
    if routeArr.length = pathArr.length then
      match collectMatchOld routeArr pathArr [] with
      | some ps => some { route := r, params := ps }
      | none => findMatchOld rs pathArr
    else findMatchOld rs pathArr

/-- The snapshot's `Router.#matchRoute` (src/unnamed/part_002 lines 85-122),
with the instance's `this.routes` passed explicitly. -/
def matchRouteOld (routes : List Route) (pathname : String) :
    Option MatchResult :=
  let pathArr := segsOf pathname
  match findMatchOld routes pathArr with
  | some m => some m
  | none =>
    (routes.find? (fun route => decide (route.path = "*"))).map
      (fun route => { route := route, params := [] })

end OldRouter

/-! ## Specification-side vocabulary

Definitions in this section state the properties the claims assert; they are
written from the specification's words and compared against the embedded
source functions by the theorems below. -/

/-- The candidate test of spec §4.1 on segment sequences: equal segment
counts (enforced structurally) and, left to right, a parameter segment
(starting with `':'`) always matches while a literal segment must be exactly
equal. -/
def segsMatch : List String → List String → Bool
  | [], [] => true
  | r :: rs, p :: ps => (isParamSeg r || decide (r = p)) && segsMatch rs ps
  | _, _ => false

/-- The parameter bindings of spec §4.1: walk matching segment sequences and
bind each parameter segment's name (the segment without its `':'`) to the
corresponding path segment, later bindings overwriting earlier ones. -/
def bindParams : List String → List String → List (String × String) →
    List (String × String)
  | r :: rs, p :: ps, acc =>
    bindParams rs ps (if isParamSeg r then mapSet acc (paramName r) p else acc)
  | _, _, acc => acc

/-- Spec §4.1 candidate test on a route pattern and a concrete pathname. -/
def routeMatchesSpec (pat pathname : String) : Bool :=
  segsMatch (segsOf pat) (segsOf pathname)

/-- Spec §4.1 extracted parameters for a matching pattern. -/
def bindParamsSpec (pat pathname : String) : List (String × String) :=
  bindParams (segsOf pat) (segsOf pathname) []

/-- The component-name grammar of spec §4.4 kind 2, stated as the claim
words it: the name starts with a lowercase letter, consists otherwise of
lowercase letters and digits, and has at least one hyphen-separated
additional (nonempty) segment. -/
def componentGrammar (s : String) : Prop :=
  ∃ (c : Char) (cs : List Char) (gs : List (List Char)),
    s.data = (c :: cs) ++ (gs.map (fun g => '-' :: g)).flatten ∧
    Router.isLowerAZ c = true ∧ cs.all Router.isAZ09 = true ∧ gs ≠ [] ∧
    ∀ g ∈ gs, g ≠ [] ∧ g.all Router.isAZ09 = true

/-- The sequence of decoded key/value assignments the query builder performs,
in order, one per `'&'`-separated piece of the search string: the piece is
split on `'='` and only the first two components are kept (the value defaults
to the empty string), each decoded independently. -/
def queryAssignsOf (search : String) : List (String × String) :=
  let q := (removeFirst '?' search).data
  if q = [] then []
  else
    (splitChar '&' q).map fun val =>
      let comps := splitChar '=' val
      (decodeURIComponentModel (String.mk (comps.getD 0 [])),
       decodeURIComponentModel (String.mk (comps.getD 1 [])))

/-- The value of the last assignment for key `k` in an assignment sequence
(`none` when no assignment targets `k`): the "last occurrence wins" reading
of the claim. -/
def lastValueFor (k : String) : List (String × String) → Option String
  | [] => none
  | kv :: rest =>
    match lastValueFor k rest with
    | some v => some v
    | none => if kv.1 = k then some kv.2 else none

/-! ## Concrete fixtures

Routes, states and worlds used by the witness and counterexample theorems.
They mirror the scenarios of the repository's test suite
(src/unnamed/part_000). -/

/-- `{ path: "/", view: "<h1>Home</h1>" }`. -/
def homeRoute : Route :=
  { path := "/", view := .vstr "<h1>Home</h1>", beforeEnter := none
  , preserveScrollPosition := false, title := none }

/-- The home route with `preserveScrollPosition: true` (the scroll-restoration
test's configuration). -/
def homePreserveRoute : Route :=
  { path := "/", view := .vstr "<h1>Home</h1>", beforeEnter := none
  , preserveScrollPosition := true, title := none }

/-- `{ path: "/page-2", view: "<h1>Page 2</h1>" }`. -/
def page2Route : Route :=
  { path := "/page-2", view := .vstr "<h1>Page 2</h1>", beforeEnter := none
  , preserveScrollPosition := false, title := none }

/-- `{ path: "/user/:id", view: "<h1>User</h1>" }`. -/
def userRoute : Route :=
  { path := "/user/:id", view := .vstr "<h1>User</h1>", beforeEnter := none
  , preserveScrollPosition := false, title := none }

/-- A route flagged `preserveScrollPosition: true`. -/
def keepRoute : Route :=
  { path := "/keep", view := .vstr "<h1>Keep</h1>", beforeEnter := none
  , preserveScrollPosition := true, title := none }

/-- A guarded route whose `beforeEnter` resolves to `false`. -/
def secretRoute : Route :=
  { path := "/secret", view := .vstr "<h1>Secret</h1>"
  , beforeEnter := some (.value (some false))
  , preserveScrollPosition := false, title := none }

/-- A guarded route whose `beforeEnter` resolves to `undefined` (a guard that
returns no value). -/
def openRoute : Route :=
  { path := "/open", view := .vstr "<h1>Open</h1>"
  , beforeEnter := some (.value none)
  , preserveScrollPosition := false, title := none }

/-- A guarded route whose `beforeEnter` throws. -/
def guardedThrowRoute : Route :=
  { path := "/guarded", view := .vstr "<h1>Guarded</h1>"
  , beforeEnter := some (.throws "boom")
  , preserveScrollPosition := false, title := none }

/-- A route whose view declaration matches no recognized kind. -/
def badViewRoute : Route :=
  { path := "/bad", view := .vother, beforeEnter := none
  , preserveScrollPosition := false, title := none }

/-- The committed match result for the home route. -/
def homeMatch : MatchResult := { route := homeRoute, params := [] }

/-- The committed context for the home route. -/
def homeCtx : RouteContext := Router.createRouteContext homeMatch "/"

/-- A browser world committed at `"/"` with the user scrolled to offset 500
(the scroll-restoration test's situation). -/
def world0 : World :=
  { locationPath := "/", history := ["/"], scrollY := 500
  , renderedView := some (.string, .vstr "<h1>Home</h1>")
  , documentTitle := "", errorLog := [], notifications := [] }

/-- Controller committed at `"/"`, with a false-guarded `/secret` declared. -/
def stateSecret : RouterState :=
  { routes := loadRoutes [homeRoute, secretRoute]
  , currentRoute := some homeMatch, currentRouteContext := some homeCtx
  , routeChangeCallbacks := [], scrollPositions := [] }

/-- Controller committed at `"/"`, with an undefined-guarded `/open`
declared. -/
def stateOpen : RouterState :=
  { routes := loadRoutes [homeRoute, openRoute]
  , currentRoute := some homeMatch, currentRouteContext := some homeCtx
  , routeChangeCallbacks := [], scrollPositions := [] }

/-- Controller committed at `"/"` where the home route preserves scroll:
the scroll memory holds the entry the initial render wrote. -/
def statePreserve : RouterState :=
  { routes := loadRoutes [homePreserveRoute, page2Route, keepRoute]
  , currentRoute := some { route := homePreserveRoute, params := [] }
  , currentRouteContext := some homeCtx
  , routeChangeCallbacks := [], scrollPositions := [("/", 0)] }

/-- Controller committed at `"/"`, with a throw-guarded route declared. -/
def stateGuardThrow : RouterState :=
  { routes := loadRoutes [homeRoute, guardedThrowRoute]
  , currentRoute := some homeMatch, currentRouteContext := some homeCtx
  , routeChangeCallbacks := [], scrollPositions := [] }

/-- Controller committed at `"/"`, with an unrecognized-view route and one
subscriber registered. -/
def stateBadView : RouterState :=
  { routes := loadRoutes [homeRoute, badViewRoute]
  , currentRoute := some homeMatch, currentRouteContext := some homeCtx
  , routeChangeCallbacks := [{ id := 7, throws := false }]
  , scrollPositions := [] }

/-- Controller committed at `"/"` with three subscribers, the middle one
throwing. -/
def stateSubscribers : RouterState :=
  { routes := loadRoutes [homeRoute, page2Route]
  , currentRoute := some homeMatch, currentRouteContext := some homeCtx
  , routeChangeCallbacks :=
      [{ id := 1, throws := false }, { id := 2, throws := true }
      , { id := 3, throws := false }]
  , scrollPositions := [] }

/-- The context built for a committed navigation to `"/page-2"`. -/
def page2Ctx : RouteContext :=
  Router.createRouteContext { route := page2Route, params := [] } "/page-2"

/-- `world0` after the history push to `"/page-2"` and the successful view
render, before subscriber notification. -/
def page2World : World :=
  { locationPath := "/page-2", history := ["/", "/page-2"], scrollY := 500
  , renderedView := some (.string, .vstr "<h1>Page 2</h1>")
  , documentTitle := "", errorLog := [], notifications := [] }

/-! # Theorems -/

/-! ## Association-list helper lemmas -/

theorem mapGet_mapSet {α : Type} (m : List (String × α)) (k k' : String)
    (v : α) :
    mapGet (mapSet m k v) k' = if k' = k then some v else mapGet m k' := by
  induction m with
  | nil =>
    by_cases h : k' = k
    · simp [mapSet, mapGet, h]
    · simp [mapSet, mapGet, h, Ne.symm h]
  | cons kv rest ih =>
    obtain ⟨ka, va⟩ := kv
    by_cases hka : ka = k
    · subst hka
      by_cases h : k' = ka
      · simp [mapSet, mapGet, h]
      · simp [mapSet, mapGet, h, Ne.symm h]
    · by_cases h : ka = k'
      · subst h
        simp [mapSet, mapGet, hka, Ne.symm hka]
      · simp [mapSet, mapGet, hka, h, ih]

theorem mapGet_foldl_mapSet (pairs : List (String × String))
    (obj : List (String × String)) (k : String) :
    mapGet (pairs.foldl (fun o kv => mapSet o kv.1 kv.2) obj) k =
      match lastValueFor k pairs with
      | some v => some v
      | none => mapGet obj k := by
  induction pairs generalizing obj with
  | nil => simp [lastValueFor]
  | cons kv rest ih =>
    simp only [List.foldl_cons, lastValueFor]
    rw [ih]
    cases h : lastValueFor k rest with
    | some v => simp
    | none =>
      simp only []
      rw [mapGet_mapSet]
      by_cases hk : kv.1 = k
      · simp [hk]
      · simp [hk, Ne.symm hk]

/-! ## Matcher lemmas -/

theorem collectMatch_eq (ra pa : List String) (acc : List (String × String)) :
    collectMatch ra pa acc =
      if segsMatch ra pa then some (bindParams ra pa acc) else none := by
  induction ra generalizing pa acc with
  | nil =>
    cases pa with
    | nil => simp [collectMatch, segsMatch, bindParams]
    | cons p ps => simp [collectMatch, segsMatch]
  | cons r rs ih =>
    cases pa with
    | nil => simp [collectMatch, segsMatch]
    | cons p ps =>
      simp only [collectMatch, segsMatch, bindParams]
      by_cases hp : isParamSeg r
      · simp [hp, ih]
      · by_cases he : r = p
        · rw [if_neg hp, if_pos he, ih]
          have hd : decide (r = p) = true := decide_eq_true he
          simp [hp, hd]
        · have hd : decide (r = p) = false := decide_eq_false he
          rw [if_neg hp, if_neg he]
          simp [hp, hd]

theorem segsMatch_length (ra pa : List String) (h : segsMatch ra pa = true) :
    ra.length = pa.length := by
  induction ra generalizing pa with
  | nil => cases pa with
    | nil => rfl
    | cons p ps => simp [segsMatch] at h
  | cons r rs ih =>
    cases pa with
    | nil => simp [segsMatch] at h
    | cons p ps =>
      simp only [segsMatch, Bool.and_eq_true] at h
      simp [ih ps h.2]

theorem findMatch_eq (routes : List Route) (pathArr : List String) :
    findMatch routes pathArr =
      (routes.find? (fun r => segsMatch (segsOf r.path) pathArr)).map
        (fun r => { route := r, params := bindParams (segsOf r.path) pathArr [] }) := by
  induction routes with
  | nil => simp [findMatch]
  | cons r rs ih =>
    simp only [List.find?_cons]
    by_cases hs : segsMatch (segsOf r.path) pathArr
    · have hlen := segsMatch_length _ _ hs
      simp [findMatch, hlen, collectMatch_eq, hs]
    · simp only [Bool.not_eq_true] at hs
      by_cases hlen : (segsOf r.path).length = pathArr.length
      · simp [findMatch, hlen, collectMatch_eq, hs, ih]
      · simp [findMatch, hlen, hs, ih]

/-! ## C4 — the path matcher -/

/-- C4: for every pathname and every catch-all-normalized route list (one
containing a `"*"` route, as `loadRoutes` guarantees), `matchRoute` returns
exactly one match result; the selected route is the first one in declaration
order whose entire segment sequence (leading/trailing slash stripped, split
on `'/'`) matches the pathname's — a `':'`-prefixed pattern segment always
matches, binding the path segment under the segment's name, and a literal
segment must be exactly equal — with the extracted bindings as parameters;
when no declared route matches, the `"*"` fallback is returned with an empty
parameter mapping.  A matching route necessarily has the same segment count
as the path (second conjunct). -/
theorem C4_matchRoute_first_match_or_fallback (pathname : String)
    (routes : List Route) (fb : Route)
    (hfb : routes.find? (fun route => decide (route.path = "*")) = some fb) :
    matchRoute pathname routes =
      some (((routes.find? (fun r => routeMatchesSpec r.path pathname)).map
              (fun r => { route := r, params := bindParamsSpec r.path pathname })).getD
            { route := fb, params := [] }) ∧
    ∀ r : Route, routeMatchesSpec r.path pathname = true →
      (segsOf r.path).length = (segsOf pathname).length := by
  constructor
  · simp only [matchRoute, findMatch_eq, routeMatchesSpec, bindParamsSpec]
    cases h : routes.find? (fun r => segsMatch (segsOf r.path) (segsOf pathname)) with
    | some r => simp
    | none => simp [hfb]
  · intro r h
    exact segsMatch_length _ _ h

/-- Witness for C4: the test suite's route list and the pathname
`"/user/123"` select the `"/user/:id"` route with `id` bound to `"123"`. -/
theorem C4_witness :
    [homeRoute, page2Route, userRoute, catchAllRoute].find?
        (fun route => decide (route.path = "*")) = some catchAllRoute ∧
    matchRoute "/user/123" [homeRoute, page2Route, userRoute, catchAllRoute] =
      some { route := userRoute, params := [("id", "123")] } := by
  refine ⟨by decide, ?_⟩
  have h := (C4_matchRoute_first_match_or_fallback "/user/123"
    [homeRoute, page2Route, userRoute, catchAllRoute] catchAllRoute (by decide)).1
  rw [h]
  decide

/-! ## C10 — the snapshot's inline matcher refines the extracted matcher -/

theorem collectMatchOld_eq_collectMatch (ra pa : List String)
    (acc : List (String × String)) :
    OldRouter.collectMatchOld ra pa acc = collectMatch ra pa acc := by
  induction ra generalizing pa acc with
  | nil => cases pa <;> simp [OldRouter.collectMatchOld, collectMatch]
  | cons r rs ih =>
    cases pa with
    | nil => simp [OldRouter.collectMatchOld, collectMatch]
    | cons p ps =>
      simp only [OldRouter.collectMatchOld, collectMatch]
      by_cases hp : isParamSeg r
      · simp [hp, ih]
      · by_cases he : r = p <;> simp [hp, he, ih]

theorem findMatchOld_eq_findMatch (routes : List Route)
    (pathArr : List String) :
    OldRouter.findMatchOld routes pathArr = findMatch routes pathArr := by
  induction routes with
  | nil => simp [OldRouter.findMatchOld, findMatch]
  | cons r rs ih =>
    simp only [OldRouter.findMatchOld, findMatch, collectMatchOld_eq_collectMatch, ih]

/-- C10: on every route list and pathname, the earlier development
snapshot's inline `#matchRoute` method returns the same match result — the
same selected route and the same parameter bindings — as the extracted
`matchRoute` utility of the current version. -/
theorem C10_inline_matcher_equals_extracted (routes : List Route)
    (pathname : String) :
    OldRouter.matchRouteOld routes pathname = matchRoute pathname routes := by
  simp [OldRouter.matchRouteOld, matchRoute, findMatchOld_eq_findMatch]

/-! ## C7 — the catch-all normalizer -/

/-- C7: `loadRoutes` is idempotent; a list already containing a `"*"` route
is returned unchanged, and otherwise exactly one synthetic fallback (the
default not-found view, no guard) is appended as the last element, the
original routes and their order preserved. -/
theorem C7_loadRoutes_idempotent (rs : List Route) :
    loadRoutes (loadRoutes rs) = loadRoutes rs ∧
    ((rs.find? (fun route => decide (route.path = "*"))).isSome →
      loadRoutes rs = rs) ∧
    (rs.find? (fun route => decide (route.path = "*")) = none →
      loadRoutes rs = rs ++ [catchAllRoute]) := by
  cases h : rs.find? (fun route => decide (route.path = "*")) with
  | some r =>
    have h1 : loadRoutes rs = rs := by simp [loadRoutes, h]
    refine ⟨by rw [h1, h1], fun _ => h1, fun hn => by simp at hn⟩
  | none =>
    have h1 : loadRoutes rs = rs ++ [catchAllRoute] := by simp [loadRoutes, h]
    have h2 : (rs ++ [catchAllRoute]).find?
        (fun route => decide (route.path = "*")) = some catchAllRoute := by
      rw [List.find?_append, h]
      decide
    refine ⟨?_, fun hs => by simp [h] at hs, fun _ => h1⟩
    rw [h1]
    simp [loadRoutes, h2]

/-- Witness for C7: normalizing a singleton list appends the fallback, and
normalizing again changes nothing. -/
theorem C7_witness :
    loadRoutes [homeRoute] = [homeRoute, catchAllRoute] ∧
    loadRoutes (loadRoutes [homeRoute]) = loadRoutes [homeRoute] :=
  ⟨(C7_loadRoutes_idempotent [homeRoute]).2.2 (by decide),
   (C7_loadRoutes_idempotent [homeRoute]).1⟩

/-! ## C6 — the view resolver -/

theorem all_takeWhile (p : Char → Bool) (l : List Char) :
    (l.takeWhile p).all p = true := by
  induction l with
  | nil => simp
  | cons x xs ih =>
    by_cases h : p x <;> simp [List.takeWhile_cons, h, ih]

theorem takeWhile_all_append (p : Char → Bool) (l r : List Char)
    (hl : l.all p = true) (hr : ∀ c, r.head? = some c → p c = false) :
    (l ++ r).takeWhile p = l ∧ (l ++ r).dropWhile p = r := by
  induction l with
  | nil =>
    simp only [List.nil_append]
    cases r with
    | nil => simp
    | cons c cs =>
      have hc := hr c rfl
      simp [List.takeWhile_cons, List.dropWhile_cons, hc]
  | cons x xs ih =>
    simp only [List.all_cons, Bool.and_eq_true] at hl
    have h2 := ih hl.2
    simp [List.takeWhile_cons, List.dropWhile_cons, hl.1, h2.1, h2.2]

theorem wcGroups_sound : ∀ (l : List Char), Router.wcGroups l = true →
    ∃ gs : List (List Char),
      l = (gs.map (fun g => '-' :: g)).flatten ∧
      ∀ g ∈ gs, g ≠ [] ∧ g.all Router.isAZ09 = true
  | [], _ => ⟨[], by simp, by simp⟩
  | c :: cs, h => by
    rw [Router.wcGroups] at h
    simp only [Bool.and_eq_true, decide_eq_true_iff] at h
    obtain ⟨hc, hpos, hrec⟩ := h
    obtain ⟨gs, hgs, hall⟩ := wcGroups_sound (cs.dropWhile Router.isAZ09) hrec
    subst hc
    refine ⟨cs.takeWhile Router.isAZ09 :: gs, ?_, ?_⟩
    · simp only [List.map_cons, List.flatten_cons, List.cons_append]
      rw [← hgs, List.takeWhile_append_dropWhile]
    · intro g hg
      cases hg with
      | head => exact ⟨List.length_pos.mp hpos, all_takeWhile _ _⟩
      | tail _ hg' => exact hall g hg'
termination_by l => l.length
decreasing_by
  simp only [List.length_cons]
  exact Nat.lt_succ_of_le (List.Sublist.length_le (List.dropWhile_sublist _))

theorem wcGroups_complete : ∀ (gs : List (List Char)),
    (∀ g ∈ gs, g ≠ [] ∧ g.all Router.isAZ09 = true) →
    Router.wcGroups ((gs.map (fun g => '-' :: g)).flatten) = true
  | [], _ => by
    simp only [List.map_nil, List.flatten_nil]
    rw [Router.wcGroups]
  | g :: gs', hall => by
    obtain ⟨hne, hg⟩ := hall g (by simp)
    have hrest : ∀ g' ∈ gs', g' ≠ [] ∧ g'.all Router.isAZ09 = true :=
      fun g' h' => hall g' (by simp [h'])
    have hhead : ∀ c, ((gs'.map (fun g => '-' :: g)).flatten).head? = some c →
        Router.isAZ09 c = false := by
      cases gs' with
      | nil => intro c hc; simp at hc
      | cons g'' gs'' =>
        intro c hc
        simp only [List.map_cons, List.flatten_cons, List.cons_append,
          List.head?_cons, Option.some.injEq] at hc
        rw [← hc]
        decide
    have hsplit := takeWhile_all_append Router.isAZ09 g
      ((gs'.map (fun g => '-' :: g)).flatten) hg hhead
    simp only [List.map_cons, List.flatten_cons, List.cons_append]
    rw [Router.wcGroups]
    simp only [Bool.and_eq_true, decide_eq_true_iff]
    refine ⟨by trivial, ?_, ?_⟩
    · rw [hsplit.1]
      exact List.length_pos.mpr hne
    · rw [hsplit.2]
      exact wcGroups_complete gs' hrest

theorem isWebComponentName_iff_grammar (s : String) :
    Router.isWebComponentName s = true ↔ componentGrammar s := by
  constructor
  · intro h
    unfold Router.isWebComponentName at h
    cases hs : s.data with
    | nil => rw [hs] at h; simp at h
    | cons c rest =>
      rw [hs] at h
      simp only [Bool.and_eq_true, decide_eq_true_iff] at h
      obtain ⟨hc, hne, hwc⟩ := h
      obtain ⟨gs, hgs, hall⟩ := wcGroups_sound _ hwc
      refine ⟨c, rest.takeWhile Router.isAZ09, gs, ?_, hc, all_takeWhile _ _, ?_, hall⟩
      · rw [hs]
        simp only [List.cons_append]
        rw [← hgs, List.takeWhile_append_dropWhile]
      · intro hgnil
        rw [hgnil] at hgs
        simp only [List.map_nil, List.flatten_nil] at hgs
        exact hne hgs
  · rintro ⟨c, cs, gs, hdata, hc, hcs, hgs, hall⟩
    unfold Router.isWebComponentName
    rw [hdata]
    simp only [List.cons_append, Bool.and_eq_true, decide_eq_true_iff]
    have hhead : ∀ ch, ((gs.map (fun g => '-' :: g)).flatten).head? = some ch →
        Router.isAZ09 ch = false := by
      cases gs with
      | nil => intro ch hch; simp at hch
      | cons g' gs' =>
        intro ch hch
        simp only [List.map_cons, List.flatten_cons, List.cons_append,
          List.head?_cons, Option.some.injEq] at hch
        rw [← hch]
        decide
    have hsplit := takeWhile_all_append Router.isAZ09 cs
      ((gs.map (fun g => '-' :: g)).flatten) hcs hhead
    refine ⟨hc, ?_, ?_⟩
    · rw [hsplit.2]
      cases gs with
      | nil => exact absurd rfl hgs
      | cons g' gs' => simp
    · rw [hsplit.2]
      exact wcGroups_complete gs hall

/-- C6: the view resolver classifies in first-match-wins order — (1) a
string whose trimmed form starts with `'<'` and ends with `'>'` is textual
markup; (2) otherwise a string whose trimmed form satisfies the
component-name grammar (starts with a lowercase letter, consists otherwise
of lowercase letters and digits, and has at least one hyphen-separated
additional segment) is a named-component reference; (3) an element instance
is a materialized element handle; (4) a promise-returning thunk is resolved
by awaiting it and recursing on the awaited value's truthy `default` field
when present, otherwise on the awaited value itself; any declaration
matching none of these (a string matching neither string form, a function
not returning a promise, any other value) fails with the "unrecognized view
format" error; and kinds 1-3 resolve without any suspension point. -/
theorem C6_view_resolver_classification :
    (∀ s : String, Router.isMarkupString (jsTrim s) = true →
      Router.validateView (.vstr s) = .ok (.string, .vstr (jsTrim s))) ∧
    (∀ s : String, Router.isMarkupString (jsTrim s) = false →
      componentGrammar (jsTrim s) →
      Router.validateView (.vstr s) = .ok (.webComponent, .vstr (jsTrim s))) ∧
    (∀ n : Nat, Router.validateView (.velem n) = .ok (.htmlElement, .velem n)) ∧
    (∀ d : View, Router.validateView (.vlazyDefault d) = Router.validateView d) ∧
    (∀ v : View, Router.validateView (.vlazyPlain v) = Router.validateView v) ∧
    (∀ s : String, Router.isMarkupString (jsTrim s) = false →
      ¬ componentGrammar (jsTrim s) →
      Router.validateView (.vstr s) = .error Router.unrecognizedViewMessage) ∧
    Router.validateView .vfuncNonPromise = .error Router.unrecognizedViewMessage ∧
    Router.validateView .vother = .error Router.unrecognizedViewMessage ∧
    (∀ s : String, Router.awaitCount (.vstr s) = 0) ∧
    (∀ n : Nat, Router.awaitCount (.velem n) = 0) := by
  refine ⟨?_, ?_, fun n => rfl, fun d => rfl, fun v => rfl, ?_, rfl, rfl,
    fun s => rfl, fun n => rfl⟩
  · intro s hm
    simp [Router.validateView, hm]
  · intro s hm hg
    have hwc : Router.isWebComponentName (jsTrim s) = true :=
      (isWebComponentName_iff_grammar (jsTrim s)).mpr hg
    simp [Router.validateView, hm, hwc]
  · intro s hm hg
    have hwc : Router.isWebComponentName (jsTrim s) = false := by
      cases hv : Router.isWebComponentName (jsTrim s) with
      | true => exact absurd ((isWebComponentName_iff_grammar (jsTrim s)).mp hv) hg
      | false => rfl
    simp [Router.validateView, hm, hwc]

/-- Witness for C6: markup, component-name, element, lazy-with-default and
unrecognized declarations at concrete inputs. -/
theorem C6_witness :
    Router.validateView (.vstr " <p>Hello</p> ")
      = .ok (.string, .vstr "<p>Hello</p>") ∧
    Router.validateView (.vstr "x-test-el")
      = .ok (.webComponent, .vstr "x-test-el") ∧
    Router.validateView (.vstr "plain")
      = .error Router.unrecognizedViewMessage := by
  refine ⟨?_, ?_, ?_⟩
  · have h := C6_view_resolver_classification.1 " <p>Hello</p> " (by decide)
    have ht : jsTrim " <p>Hello</p> " = "<p>Hello</p>" := by decide
    rw [ht] at h
    exact h
  · have h := C6_view_resolver_classification.2.1 "x-test-el" (by decide)
      ⟨'x', [], [['t', 'e', 's', 't'], ['e', 'l']], by decide, by decide,
        by decide, by decide, by decide⟩
    have ht : jsTrim "x-test-el" = "x-test-el" := by decide
    rw [ht] at h
    exact h
  · exact C6_view_resolver_classification.2.2.2.2.2.1 "plain" (by decide)
      (fun hg => absurd ((isWebComponentName_iff_grammar (jsTrim "plain")).mpr hg)
        (by decide))

/-! ## C5 — the route-context builder -/

theorem splitChar_not_mem (c : Char) (l : List Char) (h : ¬ c ∈ l) :
    splitChar c l = [l] := by
  induction l with
  | nil => simp [splitChar]
  | cons x xs ih =>
    simp only [List.mem_cons, not_or] at h
    rw [splitChar, ih h.2]
    have hx : ¬ x = c := fun he => h.1 he.symm
    simp [hx]

theorem createRouteContext_query_eq_foldl (m : MatchResult) (path : String) :
    (Router.createRouteContext m path).query =
      (queryAssignsOf (parseURL path).search).foldl
        (fun o kv => mapSet o kv.1 kv.2) [] := by
  by_cases h : (removeFirst '?' (parseURL path).search).data = []
  · simp [Router.createRouteContext, queryAssignsOf, h]
  · simp only [Router.createRouteContext, queryAssignsOf, if_neg h]
    rw [List.foldl_map]

/-- C5 counterexample: the claim says each `&`-separated pair is split on
the *first* `'='`, so the search string `"?a=b=c"` would have to parse to
the mapping `a ↦ "b=c"`; the code splits on every `'='` and keeps only the
first two components, producing `a ↦ "b"`. -/
theorem C5_counterexample_second_equals :
    (Router.createRouteContext homeMatch "/p?a=b=c").query = [("a", "b")] ∧
    ("b" : String) ≠ "b=c" :=
  ⟨by decide, by decide⟩

/-- C5 as amended: the query mapping is built from the sequence of decoded
assignments obtained by splitting the search string (leading `'?'` removed)
on `'&'` and splitting each piece on `'='`, keeping only the first two
components — the key is component 0 and the value component 1, defaulting to
the empty string when there is no `'='`, anything after a second `'='` being
discarded — percent-decoding key and value independently; looking up any key
returns the value of the last assignment for it (last occurrence wins); an
absent query string yields an empty mapping; and the hash field is the
fragment without its leading `'#'`, the empty string when the fragment is
absent. -/
theorem C5_amended_query_semantics :
    (∀ (m : MatchResult) (path k : String),
      mapGet (Router.createRouteContext m path).query k
        = lastValueFor k (queryAssignsOf (parseURL path).search)) ∧
    (∀ (m : MatchResult) (path : String), (parseURL path).search = "" →
      (Router.createRouteContext m path).query = []) ∧
    (∀ (m : MatchResult) (path : String),
      (Router.createRouteContext m path).hash
        = removeFirst '#' (parseURL path).hash) ∧
    (∀ (m : MatchResult) (path : String), (parseURL path).hash = "" →
      (Router.createRouteContext m path).hash = "") ∧
    (∀ (m : MatchResult) (path : String) (f : List Char),
      (parseURL path).hash = String.mk ('#' :: f) →
      (Router.createRouteContext m path).hash = String.mk f) ∧
    (∀ val : List Char, ¬ '=' ∈ val → (splitChar '=' val).getD 1 [] = []) := by
  refine ⟨?_, ?_, fun m path => rfl, ?_, ?_, ?_⟩
  · intro m path k
    rw [createRouteContext_query_eq_foldl, mapGet_foldl_mapSet]
    cases lastValueFor k (queryAssignsOf (parseURL path).search) <;> simp [mapGet]
  · intro m path h
    simp [Router.createRouteContext, h, removeFirst, removeFirstAux]
  · intro m path h
    simp [Router.createRouteContext, h, removeFirst, removeFirstAux]
  · intro m path f h
    simp [Router.createRouteContext, h, removeFirst, removeFirstAux]
  · intro val h
    rw [splitChar_not_mem '=' val h]
    rfl

/-- Witness for C5 as amended: a duplicate key resolves to its last value,
and a fragment loses only its leading marker. -/
theorem C5_amended_witness :
    mapGet (Router.createRouteContext homeMatch "/p?x=1&x=2").query "x"
      = some "2" ∧
    (Router.createRouteContext homeMatch "/p#sec").hash = "sec" := by
  constructor
  · rw [C5_amended_query_semantics.1 homeMatch "/p?x=1&x=2" "x"]
    decide
  · exact (C5_amended_query_semantics.2.2.2.2.1 homeMatch "/p#sec"
      ['s', 'e', 'c'] (by decide)).trans (by decide)

/-! ## C1 — guard aborts -/

/-- C1 counterexample: `openRoute` declares a `beforeEnter` guard whose
awaited result is `undefined` — a falsy value, which the claim says must
abort the attempt with no side effects.  Instead the nullish-coalescing
default (`?? true`, src/Router.ts line 193) treats the nullish result as
approval: the history receives a pushed entry and the current match result
moves to the guarded route. -/
theorem C1_counterexample_undefined_guard_proceeds :
    (Router.navigate stateOpen world0 "/open").2.history = ["/", "/open"] ∧
    (Router.navigate stateOpen world0 "/open").1.currentRoute
      = some { route := openRoute, params := [] } ∧
    stateOpen.currentRoute ≠ some { route := openRoute, params := [] } :=
  ⟨by decide, by decide, by decide⟩

/-- C1 as amended: for every navigation attempt (an arbitrary `#renderRoute`
invocation, and in particular `navigate`, `redirect` and the back/forward
reconcile) whose matched route's guard's awaited result is `false`, the
attempt aborts with no side effects at all — the controller state and the
world (history, location, rendered view, scroll, notifications, error log)
are returned unchanged.  A nullish awaited result (`undefined`/`null`) is
instead defaulted to approval by `?? true` and does not abort. -/
theorem C1_amended_guard_false_aborts :
    (∀ (st : RouterState) (w : World) (path : Option String)
        (action : Option HistoryOp) (m : MatchResult),
      matchRoute (Router.requestPathname w path) st.routes = some m →
      m.route.beforeEnter = some (.value (some false)) →
      Router.renderRoute st w path action = (st, w)) ∧
    (∀ (st : RouterState) (w : World) (p : String) (m : MatchResult),
      matchRoute (parseURL (Router.normalizeUrl p)).pathname st.routes = some m →
      m.route.beforeEnter = some (.value (some false)) →
      Router.navigate st w p = (st, w)) ∧
    (∀ (st : RouterState) (w : World) (p : String) (m : MatchResult),
      matchRoute (parseURL (Router.normalizeUrl p)).pathname st.routes = some m →
      m.route.beforeEnter = some (.value (some false)) →
      Router.redirect st w p = (st, w)) ∧
    (∀ (st : RouterState) (w : World) (m : MatchResult),
      matchRoute (Router.requestPathname w none) st.routes = some m →
      m.route.beforeEnter = some (.value (some false)) →
      Router.reconcile st w = (st, w)) := by
  have main : ∀ (st : RouterState) (w : World) (path : Option String)
      (action : Option HistoryOp) (m : MatchResult),
      matchRoute (Router.requestPathname w path) st.routes = some m →
      m.route.beforeEnter = some (.value (some false)) →
      Router.renderRoute st w path action = (st, w) := by
    intro st w path action m hm hg
    simp only [Router.renderRoute]
    rw [hm]
    simp only [hg, Router.guardEval, Option.getD_some]
    simp
  exact ⟨main,
    fun st w p m hm hg => main st w _ _ m hm hg,
    fun st w p m hm hg => main st w _ _ m hm hg,
    fun st w m hm hg => main st w _ _ m hm hg⟩

/-- Witness for C1 as amended: navigating from `"/"` to the false-guarded
`"/secret"` changes nothing. -/
theorem C1_amended_witness :
    Router.navigate stateSecret world0 "/secret" = (stateSecret, world0) :=
  C1_amended_guard_false_aborts.2.1 stateSecret world0 "/secret"
    { route := secretRoute, params := [] } (by decide) (by decide)

/-! ## C2 — the scroll-preserve write at the commit point -/

/-- C2, evaluated at the claim's failing input.  `statePreserve` is committed
at `"/"`, whose route is flagged `preserveScrollPosition`, with the user
scrolled to 500 and the scroll memory holding the initial render's entry
`("/", 0)`.  The claim requires the commit of a navigation to `"/page-2"` to
record `("/", 500)` for the outgoing route; the code instead consults the
*incoming* route's flag (the current statics are reassigned at
src/Router.ts lines 204-205 before the check at line 210) and writes
nothing, leaving the stale `("/", 0)`.  Conversely, navigating to the
flagged `"/keep"` writes the offset under the *incoming* key `"/keep"`,
which the claim forbids. -/
theorem C2_scroll_write_uses_incoming_route :
    (Router.navigate statePreserve world0 "/page-2").1.scrollPositions
      = [("/", (0 : Int))] ∧
    (Router.navigate statePreserve world0 "/keep").1.scrollPositions
      = [("/", (0 : Int)), ("/keep", (500 : Int))] :=
  ⟨by decide, by decide⟩

/-! ## C3 — failure before vs. after the commit point -/

/-- C3 counterexample: a navigation to `badViewRoute`, whose view resolution
throws, surfaces the error but does *not* leave the controller on the
previously committed route: the current match result was already reassigned
to the new route before the render was attempted. -/
theorem C3_counterexample_view_error_moves_state :
    (Router.navigate stateBadView world0 "/bad").1.currentRoute
      = some { route := badViewRoute, params := [] } ∧
    stateBadView.currentRoute ≠ some { route := badViewRoute, params := [] } ∧
    (Router.navigate stateBadView world0 "/bad").2.errorLog ≠ [] :=
  ⟨by decide, by decide, by decide⟩

/-- C3 as amended: a guard that throws aborts the attempt before the commit
point — the controller state is unchanged and only the prefixed error is
logged; but when view resolution/rendering throws, the navigation has
already committed: the current match result and context hold the *new*
route's values (set at src/Router.ts lines 204-205, before the render), and
the error is surfaced with its "Route view render error" prefix. -/
theorem C3_amended_failure_semantics :
    (∀ (st : RouterState) (w : World) (path : Option String)
        (action : Option HistoryOp) (m : MatchResult) (msg : String),
      matchRoute (Router.requestPathname w path) st.routes = some m →
      m.route.beforeEnter = some (.throws msg) →
      Router.renderRoute st w path action =
        (st, { w with errorLog := w.errorLog ++ ["beforeEnter error: " ++ msg] })) ∧
    (∀ (st : RouterState) (w : World) (path : Option String)
        (action : Option HistoryOp) (m : MatchResult) (msg : String) (w' : World),
      matchRoute (Router.requestPathname w path) st.routes = some m →
      Router.guardEval m.route.beforeEnter = .ok true →
      Router.renderRouteView m.route (applyHistory action w) = .error (msg, w') →
      (Router.renderRoute st w path action).1.currentRoute = some m ∧
      (Router.renderRoute st w path action).1.currentRouteContext
        = some (Router.createRouteContext m
            (Router.effectivePath path (Router.requestPathname w path))) ∧
      (Router.renderRoute st w path action).2.errorLog
        = w'.errorLog ++ ["Route view render error: " ++ msg]) := by
  constructor
  · intro st w path action m msg hm hg
    simp only [Router.renderRoute]
    rw [hm]
    simp only [hg, Router.guardEval]
  · intro st w path action m msg w' hm hg hv
    simp only [Router.renderRoute]
    rw [hm]
    simp only [hg, hv]
    by_cases hp : m.route.preserveScrollPosition <;> simp [hp]

/-- Witness for C3 as amended: a navigation to the throw-guarded route
leaves the state untouched and logs the prefixed guard error. -/
theorem C3_amended_witness :
    Router.navigate stateGuardThrow world0 "/guarded" =
      (stateGuardThrow,
        { world0 with errorLog := ["beforeEnter error: boom"] }) := by
  have h := C3_amended_failure_semantics.1 stateGuardThrow world0
    (some "/guarded") (some (.push "/guarded"))
    { route := guardedThrowRoute, params := [] } "boom" (by decide) (by decide)
  exact h.trans (by decide)

/-! ## C8 — reads before the first commit -/

/-- C8, evaluated at the failing input: on a freshly constructed controller
(no commit yet), `currentRoute()` returns the undefined match result without
throwing, but `params()` destructures the undefined context and throws a
`TypeError` — the claim's "each call returns rather than throwing" fails for
`params()`. -/
theorem C8_params_throws_before_first_commit (rs : List Route) :
    Router.params (Router.initialState rs)
      = .error Router.destructureErrorMessage ∧
    Router.currentRoute (Router.initialState rs) = none :=
  ⟨rfl, rfl⟩

/-! ## C9 — subscriber notification -/

/-- C9 counterexample: a navigation to `badViewRoute` commits (the history
entry is pushed and the current match result is reassigned) and a subscriber
is registered, yet no callback is invoked: the error reporter's rethrow
inside the view-render catch (src/Router.ts lines 216-223) skips
`#callRouteChangeCallbacks`. -/
theorem C9_counterexample_committed_without_notification :
    (Router.navigate stateBadView world0 "/bad").2.history = ["/", "/bad"] ∧
    (Router.navigate stateBadView world0 "/bad").1.currentRoute
      = some { route := badViewRoute, params := [] } ∧
    stateBadView.routeChangeCallbacks ≠ [] ∧
    (Router.navigate stateBadView world0 "/bad").2.notifications = [] :=
  ⟨by decide, by decide, by decide, by decide⟩

theorem callCbs_notifications (cbs : List Callback) (ctx : RouteContext)
    (w : World) :
    (Router.callRouteChangeCallbacks cbs ctx w).notifications
      = w.notifications ++ cbs.map (fun cb => (cb.id, ctx)) := by
  induction cbs generalizing w with
  | nil => simp [Router.callRouteChangeCallbacks]
  | cons cb rest ih =>
    simp only [Router.callRouteChangeCallbacks, List.foldl_cons] at ih ⊢
    by_cases ht : cb.throws <;> simp [ht, ih]

theorem callCbs_errorLog (cbs : List Callback) (ctx : RouteContext)
    (w : World) :
    (Router.callRouteChangeCallbacks cbs ctx w).errorLog
      = w.errorLog ++ (cbs.filter (fun cb => cb.throws)).map
          (fun _ => Router.callbackErrorMessage) := by
  induction cbs generalizing w with
  | nil => simp [Router.callRouteChangeCallbacks]
  | cons cb rest ih =>
    simp only [Router.callRouteChangeCallbacks, List.foldl_cons] at ih ⊢
    by_cases ht : cb.throws <;> simp [ht, ih]

/-- C9 as amended: after every navigation whose view render completes
without throwing, every subscribed callback is invoked with the new
navigation context in subscription (insertion) order — a throwing callback
is caught and logged and prevents neither the remaining callbacks nor the
navigation from completing; the unsubscribe closure removes exactly the
registered callback (by identity) and is an idempotent no-op when called
again.  When the view render throws, the rethrow from the error reporter
skips subscriber notification even though the navigation has committed. -/
theorem C9_amended_subscriber_semantics :
    (∀ (cbs : List Callback) (ctx : RouteContext) (w : World),
      (Router.callRouteChangeCallbacks cbs ctx w).notifications
        = w.notifications ++ cbs.map (fun cb => (cb.id, ctx))) ∧
    (∀ (cbs : List Callback) (ctx : RouteContext) (w : World),
      (Router.callRouteChangeCallbacks cbs ctx w).errorLog
        = w.errorLog ++ (cbs.filter (fun cb => cb.throws)).map
            (fun _ => Router.callbackErrorMessage)) ∧
    (∀ (cb : Callback) (l : List Callback),
      Router.unsubscribeCallback cb (Router.unsubscribeCallback cb l)
        = Router.unsubscribeCallback cb l) ∧
    (∀ (cb : Callback) (l : List Callback) (c : Callback),
      c ∈ Router.unsubscribeCallback cb l ↔ (c ∈ l ∧ c ≠ cb)) ∧
    (∀ (st : RouterState) (w : World) (path : Option String)
        (action : Option HistoryOp) (m : MatchResult) (w2 : World),
      matchRoute (Router.requestPathname w path) st.routes = some m →
      Router.guardEval m.route.beforeEnter = .ok true →
      Router.renderRouteView m.route (applyHistory action w) = .ok w2 →
      (Router.renderRoute st w path action).2.notifications
        = w2.notifications ++ st.routeChangeCallbacks.map
            (fun cb => (cb.id, Router.createRouteContext m
              (Router.effectivePath path (Router.requestPathname w path))))) := by
  refine ⟨callCbs_notifications, callCbs_errorLog, ?_, ?_, ?_⟩
  · intro cb l
    simp [Router.unsubscribeCallback, List.filter_filter]
  · intro cb l c
    simp [Router.unsubscribeCallback, List.mem_filter, decide_eq_true_iff]
  · intro st w path action m w2 hm hg hv
    simp only [Router.renderRoute]
    rw [hm]
    simp only [hg, hv]
    rw [if_neg (by decide : ¬(true = false))]
    by_cases hp : m.route.preserveScrollPosition
    · simp only [hp, if_true]
      split
      · split <;> simp [callCbs_notifications]
      · simp [callCbs_notifications]
    · simp only [hp, if_false]
      split
      · split <;> simp [callCbs_notifications]
      · simp [callCbs_notifications]

/-- Witness for C9 as amended: a successful navigation notifies all three
subscribers in registration order with the new context; the middle one
throws and is merely logged. -/
theorem C9_amended_witness :
    (Router.navigate stateSubscribers world0 "/page-2").2.notifications
      = [(1, page2Ctx), (2, page2Ctx), (3, page2Ctx)] := by
  have h := C9_amended_subscriber_semantics.2.2.2.2 stateSubscribers world0
    (some "/page-2") (some (.push "/page-2"))
    { route := page2Route, params := [] } page2World
    (by decide) rfl rfl
  have hnav : Router.navigate stateSubscribers world0 "/page-2"
      = Router.renderRoute stateSubscribers world0 (some "/page-2")
          (some (.push "/page-2")) := rfl
  rw [hnav, h]
  decide

end ToyRouter
